import Mathlib

/-!
Verification of the SharpDicom GPU dispatch layer (src/native/src/gpu_wrapper.c)
and the output-size guards of its two decode providers
(src/native/src/j2k_wrapper.c and src/native/cuda/nvjpeg2k_wrapper.c).

The C code is shallowly embedded: machine `size_t` arithmetic is `Nat`
with explicit reduction modulo `2 ^ 64`, C `int` values are `Int`,
thread-local state and the process-wide loader state are passed
explicitly, and the two external decode backends (the dynamically
loaded nvJPEG2000 wrapper and the CPU OpenJPEG wrapper) are modelled
as environments describing what each backend call would return for the
request at hand.
-/

namespace SharpDicom

/-! ## Native size type and the safe multiplication helpers
    (src/native/src/sharpdicom_codecs.h, lines 78-116) -/

/-- `2 ^ 64`: one past the maximum of the native `size_t` on the 64-bit
platforms the wrapper targets. -/
def sizeMod : Nat := 2 ^ 64

/-- The C cast `(size_t)v` applied to a signed `int` value: reduction
modulo `2 ^ 64` (negative values sign-extend and wrap). -/
def size_of_int (v : Int) : Nat := (v % (sizeMod : Int)).toNat

/-- `safe_mul_size` (sharpdicom_codecs.h line 78): multiply two `size_t`
values, returning 0 when the product overflows the native size type. -/
def safe_mul_size (a b : Nat) : Nat :=
  if sizeMod ≤ a * b then 0 else a * b

/-- `safe_mul3_size` (sharpdicom_codecs.h line 103): multiply three
`size_t` values, returning 0 on overflow. -/
def safe_mul3_size (a b c : Nat) : Nat :=
  let ab := safe_mul_size a b
  if ab = 0 ∧ (a ≠ 0 ∧ b ≠ 0) then 0 else safe_mul_size ab c

/-- `safe_mul4_size` (sharpdicom_codecs.h line 112): multiply four
`size_t` values, returning 0 on overflow. -/
def safe_mul4_size (a b c d : Nat) : Nat :=
  let abc := safe_mul3_size a b c
  if abc = 0 ∧ (a ≠ 0 ∧ b ≠ 0 ∧ c ≠ 0) then 0 else safe_mul_size abc d

/-! ## Status codes (src/native/src/gpu_wrapper.h, lines 38-45) -/

def GPU_OK : Int := 0
def GPU_ERR_INVALID_ARGUMENT : Int := -1
def GPU_ERR_OUT_OF_MEMORY : Int := -2
def GPU_ERR_DECODE_FAILED : Int := -3
def GPU_ERR_NOT_AVAILABLE : Int := -5

/-! ## Thread-local error and preference context
    (src/native/src/gpu_wrapper.c, lines 53-65 and 369-375) -/

/-- Capacity of the thread-local error buffer `tls_error[256]`. -/
def tlsErrorCapacity : Nat := 256

/-- Per-thread state: the error message buffer and the CPU-preference
override flag.  Messages are byte strings, modelled as `List Char`. -/
structure ThreadCtx where
  tlsError : List Char
  tlsPreferCpu : Bool
deriving Repr, DecidableEq

/-- Initial per-thread state: the C thread-local initializers
`tls_error[256] = {0}` and `tls_prefer_cpu = 0`. -/
def initialThreadCtx : ThreadCtx := { tlsError := [], tlsPreferCpu := false }

/-- The message actually stored by `set_error` for a non-null input:
copied whole when it fits, otherwise truncated to the first
`tlsErrorCapacity - 1 = 255` characters (the last slot holds the NUL). -/
def errorStored (m : List Char) : List Char :=
  m.take (if tlsErrorCapacity ≤ m.length then tlsErrorCapacity - 1 else m.length)

/-- `set_error` (gpu_wrapper.c line 56): store a message in the calling
thread's error buffer, truncating to the buffer capacity; a null message
clears the buffer. -/
def set_error (msg : Option (List Char)) (ctx : ThreadCtx) : ThreadCtx :=
  match msg with
  | some m => { ctx with tlsError := errorStored m }
  | none => { ctx with tlsError := [] }

/-- `gpu_prefer_cpu` (gpu_wrapper.c line 369). -/
def gpu_prefer_cpu (prefer : Bool) (ctx : ThreadCtx) : ThreadCtx :=
  { ctx with tlsPreferCpu := prefer }

/-- `gpu_clear_error` (gpu_wrapper.c line 536). -/
def gpu_clear_error (ctx : ThreadCtx) : ThreadCtx :=
  { ctx with tlsError := [] }

/-! ## Capability loader (gpu_wrapper.c, lines 126-295) -/

/-- The process-wide loader state: `g_nvj2k_loaded`, `g_nvj2k_available`,
whether `g_nvj2k_lib` currently holds an open library handle, whether the
`fn_nvj2k_*` pointers were all resolved, and whether `g_device_info` was
cached. -/
structure LoaderState where
  loaded : Bool
  available : Bool
  libOpen : Bool
  fnsResolved : Bool
  infoCached : Bool
deriving Repr, DecidableEq

/-- Process start: all loader globals zero. -/
def initialLoaderState : LoaderState :=
  { loaded := false, available := false, libOpen := false,
    fnsResolved := false, infoCached := false }

/-- How a load attempt would play out in the hosting environment: which
sub-step of `ensure_nvj2k_loaded` would fail, or full success. -/
inductive LoadOutcome where
  | libNotFound
  | symbolMissing
  | probeNoDevice
  | initFailed
  | loadSuccess
deriving Repr, DecidableEq

/-- Which sub-steps of a call to `ensure_nvj2k_loaded` actually executed:
the library search, symbol resolution, the availability probe, and
backend initialization. -/
structure LoadTrace where
  searchedLibrary : Bool
  resolvedSymbols : Bool
  probed : Bool
  initialized : Bool
deriving Repr, DecidableEq

/-- The trace of a call that did no loading work at all. -/
def noLoadWork : LoadTrace :=
  { searchedLibrary := false, resolvedSymbols := false,
    probed := false, initialized := false }

/-- `ensure_nvj2k_loaded` (gpu_wrapper.c line 246): lazy one-shot load.
If `g_nvj2k_loaded` is already set the call returns at once; otherwise
it marks the state loaded, walks the sub-steps until the environment's
failure point, closes the partially opened library on any failure, and
publishes availability only on full success. -/
def ensure_nvj2k_loaded (outcome : LoadOutcome) (st : LoaderState) :
    LoaderState × LoadTrace :=
  if st.loaded then (st, noLoadWork)
  else
    match outcome with
    | .libNotFound =>
        ({ st with loaded := true, available := false },
         { searchedLibrary := true, resolvedSymbols := false,
           probed := false, initialized := false })
    | .symbolMissing =>
        ({ st with
             loaded := true, available := false,
             libOpen := false, fnsResolved := false },
         { searchedLibrary := true, resolvedSymbols := true,
           probed := false, initialized := false })
    | .probeNoDevice =>
        ({ st with
             loaded := true, available := false,
             libOpen := false, fnsResolved := true },
         { searchedLibrary := true, resolvedSymbols := true,
           probed := true, initialized := false })
    | .initFailed =>
        ({ st with
             loaded := true, available := false,
             libOpen := false, fnsResolved := true },
         { searchedLibrary := true, resolvedSymbols := true,
           probed := true, initialized := true })
    | .loadSuccess =>
        ({ loaded := true, available := true, libOpen := true,
           fnsResolved := true, infoCached := true },
         { searchedLibrary := true, resolvedSymbols := true,
           probed := true, initialized := true })

/-! ## Single-item dispatch core: `gpu_j2k_decode`
    (gpu_wrapper.c, lines 377-441) -/

/-- The result struct filled by the nvJPEG2000 backend decode. -/
structure NvDecodeResult where
  width : Int
  height : Int
  num_components : Int
  precision : Int
  output_size : Nat
deriving Repr, DecidableEq

/-- `gpu_decode_result_t` (gpu_wrapper.h line 54). -/
structure GpuDecodeResult where
  width : Int
  height : Int
  num_components : Int
  precision : Int
  output_size : Nat
deriving Repr, DecidableEq

/-- What the two decode backends would return for one request: the
status, result and thread-local error message of the nvJPEG2000 call,
and the status, dimensions and error message of the CPU `j2k_decode`
call. -/
structure SingleEnv where
  gpuStatus : Int
  gpuResult : NvDecodeResult
  gpuErr : List Char
  cpuStatus : Int
  cpuWidth : Int
  cpuHeight : Int
  cpuComponents : Int
  cpuErr : List Char
deriving Repr, DecidableEq

/-- Outcome of one `gpu_j2k_decode` call: the returned status, the
contents written to the caller's result struct (when the call reached a
point that writes it), the thread context on return, and how many times
the accelerator decode and the CPU decode were invoked. -/
structure DecodeOut where
  status : Int
  result : Option GpuDecodeResult
  ctx : ThreadCtx
  gpuCalls : Nat
  cpuCalls : Nat
deriving Repr, DecidableEq

/-- The CPU tail of `gpu_j2k_decode` (gpu_wrapper.c lines 423-440):
call `j2k_decode`; on success fill the result with the reported
dimensions, a hard-coded precision of 8 and an overflow-checked
`width*height*components` size; on failure store the CPU error and
return `GPU_ERR_DECODE_FAILED`. -/
def cpu_fallback (env : SingleEnv) (ctx : ThreadCtx) (gpuCalls : Nat) :
    DecodeOut :=
  if env.cpuStatus = 0 then
    { status := GPU_OK,
      result := some
        { width := env.cpuWidth, height := env.cpuHeight,
          num_components := env.cpuComponents, precision := 8,
          output_size := safe_mul3_size (size_of_int env.cpuWidth)
            (size_of_int env.cpuHeight) (size_of_int env.cpuComponents) },
      ctx := ctx, gpuCalls := gpuCalls, cpuCalls := 1 }
  else
    { status := GPU_ERR_DECODE_FAILED, result := none,
      ctx := set_error (some env.cpuErr) ctx,
      gpuCalls := gpuCalls, cpuCalls := 1 }

/-- `gpu_j2k_decode` (gpu_wrapper.c line 377).  Null/empty argument
checks, lazy load, accelerator attempt when available and not
CPU-preferred, error capture and CPU fallback on accelerator failure. -/
def gpu_j2k_decode (outcome : LoadOutcome) (ls : LoaderState)
    (ctx : ThreadCtx) (inputNull : Bool) (inputLen : Nat)
    (outputNull : Bool) (outputLen : Nat) (env : SingleEnv) :
    DecodeOut × LoaderState :=
  if inputNull = true ∨ inputLen = 0 then
    ({ status := GPU_ERR_INVALID_ARGUMENT, result := none,
       ctx := set_error (some ("Input is NULL or empty").data) ctx,
       gpuCalls := 0, cpuCalls := 0 }, ls)
  else if outputNull = true ∨ outputLen = 0 then
    ({ status := GPU_ERR_INVALID_ARGUMENT, result := none,
       ctx := set_error (some ("Output is NULL or empty").data) ctx,
       gpuCalls := 0, cpuCalls := 0 }, ls)
  else
    let ls1 := (ensure_nvj2k_loaded outcome ls).1
    if ls1.available = true ∧ ctx.tlsPreferCpu = false ∧ ls1.fnsResolved = true then
      if env.gpuStatus = 0 then
        ({ status := GPU_OK,
           result := some
             { width := env.gpuResult.width, height := env.gpuResult.height,
               num_components := env.gpuResult.num_components,
               precision := env.gpuResult.precision,
               output_size := env.gpuResult.output_size },
           ctx := ctx, gpuCalls := 1, cpuCalls := 0 }, ls1)
      else
        (cpu_fallback env (set_error (some env.gpuErr) ctx) 1, ls1)
    else
      (cpu_fallback env ctx 0, ls1)

/-! ## Batch coordinator: `gpu_j2k_decode_batch`
    (gpu_wrapper.c, lines 443-530) -/

/-- `nvj2k_batch_result_t` (gpu_wrapper.c line 95): one per-item result
as produced by the nvJPEG2000 batch call. -/
structure NvBatchResult where
  status : Int
  width : Int
  height : Int
  num_components : Int
  precision : Int
  output_size : Nat
deriving Repr, DecidableEq

/-- `gpu_batch_result_t` (gpu_wrapper.h line 65): one per-item result in
the caller's array. -/
structure GpuBatchResult where
  status : Int
  width : Int
  height : Int
  num_components : Int
  precision : Int
  output_size : Nat
deriving Repr, DecidableEq

/-- Field-by-field copy performed by the loop at gpu_wrapper.c
lines 483-490. -/
def nvCopy (r : NvBatchResult) : GpuBatchResult :=
  { status := r.status, width := r.width, height := r.height,
    num_components := r.num_components, precision := r.precision,
    output_size := r.output_size }

/-- One batch item: `inputs[i]`, `input_lens[i]`, `outputs[i]`,
`output_lens[i]`, plus the backend behaviour for that item's single
dispatch. -/
structure ItemSpec where
  inputNull : Bool
  inputLen : Nat
  outputNull : Bool
  outputLen : Nat
  env : SingleEnv

/-- Environment of one `gpu_j2k_decode_batch` call: whether the staging
`malloc` succeeds, the success count and the per-item results the
nvJPEG2000 batch call would report, and the per-item environments used
by the per-item fallback. -/
structure BatchEnv where
  mallocOk : Bool
  batchSuccess : Int
  batchResults : Nat → NvBatchResult
  items : Nat → ItemSpec

/-- The zeroed per-item record written for a failed item in the CPU
fallback loop (gpu_wrapper.c lines 520-526). -/
def zeroFailedItem (status : Int) : GpuBatchResult :=
  { status := status, width := 0, height := 0, num_components := 0,
    precision := 0, output_size := 0 }

/-- Placeholder used when reading a list out of range; never reached at
the indices the theorems quantify over. -/
def defaultBatchItem : GpuBatchResult := zeroFailedItem 0

/-- The record written at index `i` by the CPU fallback loop
(gpu_wrapper.c lines 512-526), given that item's single-dispatch
outcome. -/
def itemResultOf (out : DecodeOut) : GpuBatchResult :=
  if out.status = GPU_OK then
    let r := out.result.getD
      { width := 0, height := 0, num_components := 0, precision := 0,
        output_size := 0 }
    { status := GPU_OK, width := r.width, height := r.height,
      num_components := r.num_components, precision := r.precision,
      output_size := r.output_size }
  else zeroFailedItem out.status

/-- Accumulated outcome of the per-item fallback loop
(gpu_wrapper.c lines 502-527). -/
structure BatchLoopOut where
  results : List GpuBatchResult
  successCount : Nat
  ctx : ThreadCtx
  ls : LoaderState
  dispatchCalls : Nat
  gpuCalls : Nat
  cpuCalls : Nat

/-- The CPU fallback loop of `gpu_j2k_decode_batch`: run each listed
item through the full single-item dispatch `gpu_j2k_decode`, in order,
threading the thread context and loader state, recording each item's
written record and tallying successes. -/
def batch_cpu_loop (outcome : LoadOutcome) (items : Nat → ItemSpec) :
    List Nat → LoaderState → ThreadCtx → BatchLoopOut
  | [], ls, ctx =>
      { results := [], successCount := 0, ctx := ctx, ls := ls,
        dispatchCalls := 0, gpuCalls := 0, cpuCalls := 0 }
  | i :: rest, ls, ctx =>
      let it := items i
      let step := gpu_j2k_decode outcome ls ctx it.inputNull it.inputLen
        it.outputNull it.outputLen it.env
      let tail := batch_cpu_loop outcome items rest step.2 step.1.ctx
      { results := itemResultOf step.1 :: tail.results,
        successCount := (if step.1.status = GPU_OK then 1 else 0) + tail.successCount,
        ctx := tail.ctx, ls := tail.ls,
        dispatchCalls := 1 + tail.dispatchCalls,
        gpuCalls := step.1.gpuCalls + tail.gpuCalls,
        cpuCalls := step.1.cpuCalls + tail.cpuCalls }

/-- Outcome of one `gpu_j2k_decode_batch` call: the returned success
count, the final contents of the caller's result array (as a function of
the index, unwritten slots keeping their prior contents), the thread
context and loader state on return, whether the accelerator batch entry
point was invoked, and how many items went through the single-item
dispatch. -/
structure BatchOut where
  ret : Int
  results : Nat → GpuBatchResult
  ctx : ThreadCtx
  ls : LoaderState
  gpuBatchCalls : Nat
  dispatchCalls : Nat

/-- `gpu_j2k_decode_batch` (gpu_wrapper.c line 443).  Argument checks;
lazy load; when the accelerator is usable: staging allocation, one
accelerator batch call, verbatim copy-back, and acceptance of any
positive success count; otherwise (or on zero accelerator successes)
the per-item fallback loop.  `prior` is the caller's result array
contents before the call. -/
def gpu_j2k_decode_batch (outcome : LoadOutcome) (ls : LoaderState)
    (ctx : ThreadCtx) (anyArrayNull : Bool) (count : Int)
    (prior : Nat → GpuBatchResult) (benv : BatchEnv) : BatchOut :=
  if anyArrayNull = true then
    { ret := 0, results := prior,
      ctx := set_error (some ("NULL parameter").data) ctx, ls := ls,
      gpuBatchCalls := 0, dispatchCalls := 0 }
  else if count ≤ 0 then
    { ret := 0, results := prior,
      ctx := set_error (some ("Count must be positive").data) ctx, ls := ls,
      gpuBatchCalls := 0, dispatchCalls := 0 }
  else
    let n := count.toNat
    let ls1 := (ensure_nvj2k_loaded outcome ls).1
    if ls1.available = true ∧ ctx.tlsPreferCpu = false ∧ ls1.fnsResolved = true then
      if benv.mallocOk = false then
        { ret := 0,
          results := fun i =>
            if i < n then { prior i with status := GPU_ERR_OUT_OF_MEMORY }
            else prior i,
          ctx := set_error (some ("Memory allocation failed").data) ctx,
          ls := ls1, gpuBatchCalls := 0, dispatchCalls := 0 }
      else
        let copied : Nat → GpuBatchResult := fun i =>
          if i < n then nvCopy (benv.batchResults i) else prior i
        if 0 < benv.batchSuccess then
          { ret := benv.batchSuccess, results := copied, ctx := ctx,
            ls := ls1, gpuBatchCalls := 1, dispatchCalls := 0 }
        else
          let loop := batch_cpu_loop outcome benv.items (List.range n) ls1 ctx
          { ret := (loop.successCount : Int),
            results := fun i =>
              if i < n then loop.results.getD i defaultBatchItem
              else copied i,
            ctx := loop.ctx, ls := loop.ls, gpuBatchCalls := 1,
            dispatchCalls := loop.dispatchCalls }
    else
      let loop := batch_cpu_loop outcome benv.items (List.range n) ls1 ctx
      { ret := (loop.successCount : Int),
        results := fun i =>
          if i < n then loop.results.getD i defaultBatchItem
          else prior i,
        ctx := loop.ctx, ls := loop.ls, gpuBatchCalls := 0,
        dispatchCalls := loop.dispatchCalls }

/-- The single-dispatch outcome of the k-th item processed by the CPU
fallback loop, at the loader and thread state the loop threads to that
item.  The record the loop writes at index k is exactly
`itemResultOf` of this outcome. -/
def batch_loop_entry (outcome : LoadOutcome) (items : Nat → ItemSpec) :
    List Nat → LoaderState → ThreadCtx → Nat → DecodeOut
  | [], _ls, ctx, _k =>
      { status := GPU_OK, result := none, ctx := ctx,
        gpuCalls := 0, cpuCalls := 0 }
  | i :: _rest, ls, ctx, 0 =>
      let it := items i
      (gpu_j2k_decode outcome ls ctx it.inputNull it.inputLen
        it.outputNull it.outputLen it.env).1
  | i :: rest, ls, ctx, Nat.succ k =>
      let it := items i
      let step := gpu_j2k_decode outcome ls ctx it.inputNull it.inputLen
        it.outputNull it.outputLen it.env
      batch_loop_entry outcome items rest step.2 step.1.ctx k

/-! ## Output-size gates of the two providers -/

/-- Decision taken by a provider's output-size guard. -/
inductive SizeGate where
  | bufferTooSmall
  | proceed (required : Nat)
deriving Repr, DecidableEq

/-- The required-size computation and buffer check of the CPU provider
`j2k_decode` (src/native/src/j2k_wrapper.c, lines 434-445): plain
`size_t` multiplication of the casted `int` geometry values, wrapping
modulo the native size type, followed by the `output_len <
required_size` comparison. -/
def j2k_size_gate (width height num_comps bits : Int) (output_len : Nat) :
    SizeGate :=
  let bytes_per_sample : Int := if bits ≤ 8 then 1 else 2
  let required_size : Nat :=
    size_of_int width * size_of_int height * size_of_int num_comps *
      size_of_int bytes_per_sample % sizeMod
  if output_len < required_size then .bufferTooSmall
  else .proceed required_size

/-- The required-size computation and buffer check of the accelerator
provider `nvj2k_decode` (src/native/cuda/nvjpeg2k_wrapper.c, lines
415-424): overflow-checked `safe_mul4_size` of the decode geometry,
rejecting both overflow (reported as 0) and an undersized buffer. -/
def nvj2k_size_gate (decode_width decode_height num_components
    precision : Nat) (output_len : Nat) : SizeGate :=
  let bytes_per_sample : Nat := (precision + 7) / 8
  let expected_size : Nat :=
    safe_mul4_size decode_width decode_height num_components bytes_per_sample
  if expected_size = 0 ∨ output_len < expected_size then .bufferTooSmall
  else .proceed expected_size

/-! ## Helper lemmas -/

theorem set_error_some_tlsError (m : List Char) (ctx : ThreadCtx) :
    (set_error (some m) ctx).tlsError = errorStored m := rfl

theorem safe_mul_size_spec (a b : Nat) :
    safe_mul_size a b = if a * b < sizeMod then a * b else 0 := by
  unfold safe_mul_size
  rcases lt_or_le (a * b) sizeMod with h | h
  · rw [if_neg (not_le.mpr h), if_pos h]
  · rw [if_pos h, if_neg (not_lt.mpr h)]

theorem sizeMod_pos : 0 < sizeMod := by
  unfold sizeMod
  positivity

theorem safe_mul3_size_spec (a b c : Nat) :
    safe_mul3_size a b c = if a * b * c < sizeMod then a * b * c else 0 := by
  unfold safe_mul3_size
  rcases lt_or_le (a * b) sizeMod with h | h
  · rw [safe_mul_size_spec a b, if_pos h]
    have hguard : ¬(a * b = 0 ∧ a ≠ 0 ∧ b ≠ 0) := by
      rintro ⟨hab, ha, hb⟩
      rcases Nat.mul_eq_zero.mp hab with h0 | h0
      · exact ha h0
      · exact hb h0
    rw [if_neg hguard, safe_mul_size_spec]
  · have ha : a ≠ 0 := by
      rintro rfl
      simp only [Nat.zero_mul] at h
      exact absurd h (not_le.mpr sizeMod_pos)
    have hb : b ≠ 0 := by
      rintro rfl
      simp only [Nat.mul_zero] at h
      exact absurd h (not_le.mpr sizeMod_pos)
    rw [safe_mul_size_spec a b, if_neg (not_lt.mpr h)]
    rw [if_pos ⟨rfl, ha, hb⟩]
    rcases Nat.eq_zero_or_pos c with rfl | hc
    · rw [Nat.mul_zero, if_pos sizeMod_pos]
    · have : sizeMod ≤ a * b * c :=
        le_trans h (Nat.le_mul_of_pos_right (a * b) hc)
      rw [if_neg (not_lt.mpr this)]

theorem safe_mul4_size_spec (a b c d : Nat) :
    safe_mul4_size a b c d =
      if a * b * c * d < sizeMod then a * b * c * d else 0 := by
  unfold safe_mul4_size
  rcases lt_or_le (a * b * c) sizeMod with h | h
  · rw [safe_mul3_size_spec a b c, if_pos h]
    have hguard : ¬(a * b * c = 0 ∧ a ≠ 0 ∧ b ≠ 0 ∧ c ≠ 0) := by
      rintro ⟨habc, ha, hb, hc⟩
      rcases Nat.mul_eq_zero.mp habc with h0 | h0
      · rcases Nat.mul_eq_zero.mp h0 with h1 | h1
        · exact ha h1
        · exact hb h1
      · exact hc h0
    rw [if_neg hguard, safe_mul_size_spec]
  · have ha : a ≠ 0 := by
      rintro rfl
      simp only [Nat.zero_mul] at h
      exact absurd h (not_le.mpr sizeMod_pos)
    have hb : b ≠ 0 := by
      rintro rfl
      simp only [Nat.zero_mul, Nat.mul_zero] at h
      exact absurd h (not_le.mpr sizeMod_pos)
    have hc : c ≠ 0 := by
      rintro rfl
      simp only [Nat.mul_zero] at h
      exact absurd h (not_le.mpr sizeMod_pos)
    rw [safe_mul3_size_spec a b c, if_neg (not_lt.mpr h)]
    rw [if_pos ⟨rfl, ha, hb, hc⟩]
    rcases Nat.eq_zero_or_pos d with rfl | hd
    · rw [Nat.mul_zero, if_pos sizeMod_pos]
    · have : sizeMod ≤ a * b * c * d :=
        le_trans h (Nat.le_mul_of_pos_right (a * b * c) hd)
      rw [if_neg (not_lt.mpr this)]

/-! ## Claim C8: capability loader idempotence and monotonicity -/

/-- Claim C8: the capability loader's ensure-loaded operation is
idempotent and monotone: every call leaves the loaded flag set; a call
on an already-loaded state returns it unchanged performing no library
search, symbol resolution, probe or initialization; after any first
call, every later call is such a no-op and the availability outcome
never changes; and a failure at any sub-step marks the backend
unavailable with the partially opened library closed. -/
theorem C8_ensure_loaded_idempotent_monotone
    (outcome : LoadOutcome) (st : LoaderState) :
    ((ensure_nvj2k_loaded outcome st).1.loaded = true) ∧
    (st.loaded = true → ensure_nvj2k_loaded outcome st = (st, noLoadWork)) ∧
    (∀ o2 : LoadOutcome,
      ensure_nvj2k_loaded o2 (ensure_nvj2k_loaded outcome st).1 =
        ((ensure_nvj2k_loaded outcome st).1, noLoadWork)) ∧
    (∀ o2 : LoadOutcome,
      (ensure_nvj2k_loaded o2 (ensure_nvj2k_loaded outcome st).1).1.available =
        (ensure_nvj2k_loaded outcome st).1.available) ∧
    (st.loaded = false → outcome ≠ LoadOutcome.loadSuccess →
      (ensure_nvj2k_loaded outcome st).1.available = false ∧
      (st.libOpen = false → (ensure_nvj2k_loaded outcome st).1.libOpen = false)) := by
  have hloaded : (ensure_nvj2k_loaded outcome st).1.loaded = true := by
    cases hst : st.loaded <;> cases outcome <;>
      simp [ensure_nvj2k_loaded, hst]
  have hnoop : ∀ (o2 : LoadOutcome) (st2 : LoaderState), st2.loaded = true →
      ensure_nvj2k_loaded o2 st2 = (st2, noLoadWork) := by
    intro o2 st2 h2
    unfold ensure_nvj2k_loaded
    rw [if_pos h2]
  refine ⟨hloaded, hnoop outcome st, ?_, ?_, ?_⟩
  · intro o2
    exact hnoop o2 _ hloaded
  · intro o2
    rw [hnoop o2 _ hloaded]
  · intro hst hfail
    cases outcome <;>
      simp_all [ensure_nvj2k_loaded, hst]

/-- Witness for C8 at a concrete failing load followed by a second call. -/
theorem C8_ensure_loaded_witness :
    (ensure_nvj2k_loaded .initFailed initialLoaderState).1.available = false ∧
    (ensure_nvj2k_loaded .initFailed initialLoaderState).1.libOpen = false ∧
    ensure_nvj2k_loaded .loadSuccess
        (ensure_nvj2k_loaded .initFailed initialLoaderState).1 =
      ((ensure_nvj2k_loaded .initFailed initialLoaderState).1, noLoadWork) := by
  have h := C8_ensure_loaded_idempotent_monotone .initFailed initialLoaderState
  exact ⟨(h.2.2.2.2 rfl (by decide)).1, (h.2.2.2.2 rfl (by decide)).2 rfl,
    h.2.2.1 .loadSuccess⟩

/-! ## Claim C9: thread error context truncation and initial state -/

/-- Claim C9: `set_error` stores a message longer than 255 characters
truncated to its first 255 characters instead of failing, and the
initial per-thread state is an empty error message with the
CPU-preference override cleared. -/
theorem C9_set_error_truncation (ctx : ThreadCtx) (m : List Char)
    (h : 255 < m.length) :
    (set_error (some m) ctx).tlsError = m.take 255 ∧
    (set_error (some m) ctx).tlsError.length = 255 ∧
    initialThreadCtx.tlsError = [] ∧
    initialThreadCtx.tlsPreferCpu = false := by
  have hcap : tlsErrorCapacity ≤ m.length := h
  have hstore : (set_error (some m) ctx).tlsError = m.take 255 := by
    rw [set_error_some_tlsError]
    unfold errorStored
    rw [if_pos hcap]
    norm_num [tlsErrorCapacity]
  refine ⟨hstore, ?_, rfl, rfl⟩
  rw [hstore, List.length_take]
  exact Nat.min_eq_left (le_of_lt h)

/-- Witness for C9 at a concrete 256-character message. -/
theorem C9_set_error_truncation_witness :
    255 < (List.replicate 256 'a').length ∧
    (set_error (some (List.replicate 256 'a')) initialThreadCtx).tlsError =
      (List.replicate 256 'a').take 255 := by
  have hlen : 255 < (List.replicate 256 'a').length := by
    rw [List.length_replicate]
    decide
  exact ⟨hlen,
    (C9_set_error_truncation initialThreadCtx (List.replicate 256 'a') hlen).1⟩

/-! ## Claim C2: invalid arguments rejected before any backend -/

/-- Claim C2: a `gpu_j2k_decode` call with a null or empty input, or a
null or empty output buffer, returns the InvalidArgument error
immediately: the capability loader state is untouched and neither the
accelerator nor the CPU provider is invoked. -/
theorem C2_invalid_arguments_rejected_early
    (outcome : LoadOutcome) (ls : LoaderState) (ctx : ThreadCtx)
    (inputNull : Bool) (inputLen : Nat) (outputNull : Bool)
    (outputLen : Nat) (env : SingleEnv)
    (h : inputNull = true ∨ inputLen = 0 ∨ outputNull = true ∨ outputLen = 0) :
    (gpu_j2k_decode outcome ls ctx inputNull inputLen outputNull outputLen
        env).1.status = GPU_ERR_INVALID_ARGUMENT ∧
    (gpu_j2k_decode outcome ls ctx inputNull inputLen outputNull outputLen
        env).1.gpuCalls = 0 ∧
    (gpu_j2k_decode outcome ls ctx inputNull inputLen outputNull outputLen
        env).1.cpuCalls = 0 ∧
    (gpu_j2k_decode outcome ls ctx inputNull inputLen outputNull outputLen
        env).2 = ls := by
  simp only [gpu_j2k_decode]
  by_cases h1 : inputNull = true ∨ inputLen = 0
  · rw [if_pos h1]
    exact ⟨rfl, rfl, rfl, rfl⟩
  · have h2 : outputNull = true ∨ outputLen = 0 := by tauto
    rw [if_neg h1, if_pos h2]
    exact ⟨rfl, rfl, rfl, rfl⟩

/-- Witness for C2 at a concrete zero-length input. -/
theorem C2_invalid_arguments_witness :
    (gpu_j2k_decode .loadSuccess initialLoaderState initialThreadCtx
        false 0 false 16
        { gpuStatus := 0, gpuResult := ⟨1, 1, 1, 8, 1⟩, gpuErr := [],
          cpuStatus := 0, cpuWidth := 1, cpuHeight := 1,
          cpuComponents := 1, cpuErr := [] }).1.status =
      GPU_ERR_INVALID_ARGUMENT :=
  (C2_invalid_arguments_rejected_early .loadSuccess initialLoaderState
    initialThreadCtx false 0 false 16 _ (Or.inr (Or.inl rfl))).1

/-! ## Claim C3: unavailable or CPU-preferred requests never touch the
    accelerator -/

/-- Claim C3: a valid `gpu_j2k_decode` call made while the accelerator
is unavailable, or while the calling thread's CPU-preference override is
set, never invokes the accelerator decode path and is served by exactly
one CPU provider call. -/
theorem C3_cpu_only_when_unavailable_or_preferred
    (outcome : LoadOutcome) (ls : LoaderState) (ctx : ThreadCtx)
    (inputNull : Bool) (inputLen : Nat) (outputNull : Bool)
    (outputLen : Nat) (env : SingleEnv)
    (hin : ¬(inputNull = true ∨ inputLen = 0))
    (hout : ¬(outputNull = true ∨ outputLen = 0))
    (hskip : (ensure_nvj2k_loaded outcome ls).1.available = false ∨
      ctx.tlsPreferCpu = true) :
    (gpu_j2k_decode outcome ls ctx inputNull inputLen outputNull outputLen
        env).1.gpuCalls = 0 ∧
    (gpu_j2k_decode outcome ls ctx inputNull inputLen outputNull outputLen
        env).1.cpuCalls = 1 := by
  simp only [gpu_j2k_decode]
  rw [if_neg hin, if_neg hout]
  have hguard : ¬((ensure_nvj2k_loaded outcome ls).1.available = true ∧
      ctx.tlsPreferCpu = false ∧
      (ensure_nvj2k_loaded outcome ls).1.fnsResolved = true) := by
    rcases hskip with h | h <;> simp [h]
  rw [if_neg hguard]
  unfold cpu_fallback
  by_cases hc : env.cpuStatus = 0
  · rw [if_pos hc]
    exact ⟨rfl, rfl⟩
  · rw [if_neg hc]
    exact ⟨rfl, rfl⟩

/-- Witness for C3: accelerator load fails, a valid request is served by
the CPU alone. -/
theorem C3_cpu_only_witness :
    (gpu_j2k_decode .libNotFound initialLoaderState initialThreadCtx
        false 4 false 16
        { gpuStatus := 0, gpuResult := ⟨1, 1, 1, 8, 1⟩, gpuErr := [],
          cpuStatus := 0, cpuWidth := 2, cpuHeight := 2,
          cpuComponents := 1, cpuErr := [] }).1.gpuCalls = 0 ∧
    (gpu_j2k_decode .libNotFound initialLoaderState initialThreadCtx
        false 4 false 16
        { gpuStatus := 0, gpuResult := ⟨1, 1, 1, 8, 1⟩, gpuErr := [],
          cpuStatus := 0, cpuWidth := 2, cpuHeight := 2,
          cpuComponents := 1, cpuErr := [] }).1.cpuCalls = 1 :=
  C3_cpu_only_when_unavailable_or_preferred .libNotFound initialLoaderState
    initialThreadCtx false 4 false 16 _ (by decide) (by decide)
    (Or.inl (by decide))

/-! ## Claim C1: accelerator failure falls back to the CPU, most recent
    error wins -/

/-- Claim C1: when a valid `gpu_j2k_decode` call attempts the
accelerator and the accelerator fails, its error message is captured in
the thread's error buffer and the CPU provider is invoked as a second
attempt; a CPU success is returned as success (leaving the captured
accelerator message in the buffer), and a CPU failure returns the
decode-failed error with the thread error buffer holding the CPU
message, not the accelerator one. -/
theorem C1_accel_failure_falls_back_to_cpu
    (outcome : LoadOutcome) (ls : LoaderState) (ctx : ThreadCtx)
    (inputNull : Bool) (inputLen : Nat) (outputNull : Bool)
    (outputLen : Nat) (env : SingleEnv)
    (hin : ¬(inputNull = true ∨ inputLen = 0))
    (hout : ¬(outputNull = true ∨ outputLen = 0))
    (hguard : (ensure_nvj2k_loaded outcome ls).1.available = true ∧
      ctx.tlsPreferCpu = false ∧
      (ensure_nvj2k_loaded outcome ls).1.fnsResolved = true)
    (hfail : env.gpuStatus ≠ 0) :
    (gpu_j2k_decode outcome ls ctx inputNull inputLen outputNull outputLen
        env).1.gpuCalls = 1 ∧
    (gpu_j2k_decode outcome ls ctx inputNull inputLen outputNull outputLen
        env).1.cpuCalls = 1 ∧
    (env.cpuStatus = 0 →
      (gpu_j2k_decode outcome ls ctx inputNull inputLen outputNull outputLen
          env).1.status = GPU_OK ∧
      (gpu_j2k_decode outcome ls ctx inputNull inputLen outputNull outputLen
          env).1.ctx.tlsError = errorStored env.gpuErr) ∧
    (env.cpuStatus ≠ 0 →
      (gpu_j2k_decode outcome ls ctx inputNull inputLen outputNull outputLen
          env).1.status = GPU_ERR_DECODE_FAILED ∧
      (gpu_j2k_decode outcome ls ctx inputNull inputLen outputNull outputLen
          env).1.ctx.tlsError = errorStored env.cpuErr) := by
  simp only [gpu_j2k_decode]
  rw [if_neg hin, if_neg hout, if_pos hguard, if_neg hfail]
  unfold cpu_fallback
  by_cases hc : env.cpuStatus = 0
  · rw [if_pos hc]
    exact ⟨rfl, rfl, fun _ => ⟨rfl, rfl⟩, fun hne => absurd hc hne⟩
  · rw [if_neg hc]
    exact ⟨rfl, rfl, fun heq => absurd heq hc, fun _ => ⟨rfl, rfl⟩⟩

/-- Witness for C1: a concrete always-failing accelerator followed by a
failing CPU attempt; the surviving thread error is the CPU message. -/
theorem C1_accel_failure_witness :
    (gpu_j2k_decode .loadSuccess initialLoaderState initialThreadCtx
        false 4 false 16
        { gpuStatus := -3, gpuResult := ⟨0, 0, 0, 0, 0⟩,
          gpuErr := ("gpu failed").data, cpuStatus := -3,
          cpuWidth := 0, cpuHeight := 0, cpuComponents := 0,
          cpuErr := ("cpu failed").data }).1.status =
      GPU_ERR_DECODE_FAILED ∧
    (gpu_j2k_decode .loadSuccess initialLoaderState initialThreadCtx
        false 4 false 16
        { gpuStatus := -3, gpuResult := ⟨0, 0, 0, 0, 0⟩,
          gpuErr := ("gpu failed").data, cpuStatus := -3,
          cpuWidth := 0, cpuHeight := 0, cpuComponents := 0,
          cpuErr := ("cpu failed").data }).1.ctx.tlsError =
      errorStored ("cpu failed").data ∧
    (gpu_j2k_decode .loadSuccess initialLoaderState initialThreadCtx
        false 4 false 16
        { gpuStatus := -3, gpuResult := ⟨0, 0, 0, 0, 0⟩,
          gpuErr := ("gpu failed").data, cpuStatus := -3,
          cpuWidth := 0, cpuHeight := 0, cpuComponents := 0,
          cpuErr := ("cpu failed").data }).1.cpuCalls = 1 := by
  have h := C1_accel_failure_falls_back_to_cpu .loadSuccess
    initialLoaderState initialThreadCtx false 4 false 16
    { gpuStatus := -3, gpuResult := ⟨0, 0, 0, 0, 0⟩,
      gpuErr := ("gpu failed").data, cpuStatus := -3,
      cpuWidth := 0, cpuHeight := 0, cpuComponents := 0,
      cpuErr := ("cpu failed").data }
    (by decide) (by decide) (by decide) (by decide)
  exact ⟨(h.2.2.2 (by decide)).1, (h.2.2.2 (by decide)).2, h.2.1⟩

/-! ## Claim C10: CPU-served successes report precision 8 and a
    three-factor size -/

/-- Claim C10: whenever `gpu_j2k_decode` succeeds through the CPU path
(accelerator unavailable, skipped by preference, or failed), the
returned result carries precision 8 regardless of the codestream's bit
depth, and an output size equal to the overflow-checked product
width × height × components, with no bytes-per-sample factor. -/
theorem C10_cpu_path_result_shape
    (outcome : LoadOutcome) (ls : LoaderState) (ctx : ThreadCtx)
    (inputNull : Bool) (inputLen : Nat) (outputNull : Bool)
    (outputLen : Nat) (env : SingleEnv)
    (hin : ¬(inputNull = true ∨ inputLen = 0))
    (hout : ¬(outputNull = true ∨ outputLen = 0))
    (hcpu : ¬((ensure_nvj2k_loaded outcome ls).1.available = true ∧
        ctx.tlsPreferCpu = false ∧
        (ensure_nvj2k_loaded outcome ls).1.fnsResolved = true) ∨
      env.gpuStatus ≠ 0)
    (hok : env.cpuStatus = 0) :
    (gpu_j2k_decode outcome ls ctx inputNull inputLen outputNull outputLen
        env).1.status = GPU_OK ∧
    (gpu_j2k_decode outcome ls ctx inputNull inputLen outputNull outputLen
        env).1.result = some
      { width := env.cpuWidth, height := env.cpuHeight,
        num_components := env.cpuComponents, precision := 8,
        output_size := safe_mul3_size (size_of_int env.cpuWidth)
          (size_of_int env.cpuHeight) (size_of_int env.cpuComponents) } := by
  simp only [gpu_j2k_decode]
  rw [if_neg hin, if_neg hout]
  rcases hcpu with hskip | hgfail
  · rw [if_neg hskip]
    unfold cpu_fallback
    rw [if_pos hok]
    exact ⟨rfl, rfl⟩
  · by_cases hguard : (ensure_nvj2k_loaded outcome ls).1.available = true ∧
        ctx.tlsPreferCpu = false ∧
        (ensure_nvj2k_loaded outcome ls).1.fnsResolved = true
    · rw [if_pos hguard, if_neg hgfail]
      unfold cpu_fallback
      rw [if_pos hok]
      exact ⟨rfl, rfl⟩
    · rw [if_neg hguard]
      unfold cpu_fallback
      rw [if_pos hok]
      exact ⟨rfl, rfl⟩

/-- Witness for C10: a CPU-served 16-bit-depth decode still reports
precision 8 and a three-factor output size. -/
theorem C10_cpu_path_result_witness :
    (gpu_j2k_decode .libNotFound initialLoaderState initialThreadCtx
        false 4 false 64
        { gpuStatus := 0, gpuResult := ⟨4, 4, 1, 16, 32⟩, gpuErr := [],
          cpuStatus := 0, cpuWidth := 4, cpuHeight := 4,
          cpuComponents := 1, cpuErr := [] }).1.result = some
      { width := 4, height := 4, num_components := 1, precision := 8,
        output_size := safe_mul3_size (size_of_int 4) (size_of_int 4)
          (size_of_int 1) } :=
  (C10_cpu_path_result_shape .libNotFound initialLoaderState
    initialThreadCtx false 4 false 64
    { gpuStatus := 0, gpuResult := ⟨4, 4, 1, 16, 32⟩, gpuErr := [],
      cpuStatus := 0, cpuWidth := 4, cpuHeight := 4,
      cpuComponents := 1, cpuErr := [] }
    (by decide) (by decide) (Or.inl (by decide)) (by decide)).2

/-! ## Claim C4: output-size overflow behaviour of the two providers -/

/-- Claim C4 (code bug): at the geometry width = 2^20, height = 2^20,
components = 2^24, 8-bit samples, the CPU provider `j2k_decode` computes
its required size with plain `size_t` multiplication: the true product
2^64 wraps to 0, the `output_len < required_size` check passes even for
a 1-byte output buffer, and decoding proceeds — no invalid-size failure.
The accelerator provider `nvj2k_decode`, at the same geometry, uses the
overflow-checked `safe_mul4_size` and rejects the call, as the claim
requires of every provider. -/
theorem C4_j2k_size_check_wraps_silently :
    j2k_size_gate (2 ^ 20) (2 ^ 20) (2 ^ 24) 8 1 = SizeGate.proceed 0 ∧
    sizeMod ≤ size_of_int (2 ^ 20) * size_of_int (2 ^ 20) *
      size_of_int (2 ^ 24) * size_of_int 1 ∧
    nvj2k_size_gate (2 ^ 20) (2 ^ 20) (2 ^ 24) 8 1 =
      SizeGate.bufferTooSmall := by
  refine ⟨?_, ?_, ?_⟩ <;> decide

/-! ## Batch loop helper lemmas -/

theorem batch_cpu_loop_results_length (outcome : LoadOutcome)
    (items : Nat → ItemSpec) :
    ∀ (l : List Nat) (ls : LoaderState) (ctx : ThreadCtx),
      (batch_cpu_loop outcome items l ls ctx).results.length = l.length := by
  intro l
  induction l with
  | nil => intro ls ctx; rfl
  | cons j rest ih =>
      intro ls ctx
      simp only [batch_cpu_loop, List.length_cons]
      rw [ih]

theorem batch_cpu_loop_dispatch_count (outcome : LoadOutcome)
    (items : Nat → ItemSpec) :
    ∀ (l : List Nat) (ls : LoaderState) (ctx : ThreadCtx),
      (batch_cpu_loop outcome items l ls ctx).dispatchCalls = l.length := by
  intro l
  induction l with
  | nil => intro ls ctx; rfl
  | cons j rest ih =>
      intro ls ctx
      simp only [batch_cpu_loop, List.length_cons]
      rw [ih, Nat.add_comm]

theorem itemResultOf_status (out : DecodeOut) :
    (itemResultOf out).status = out.status := by
  unfold itemResultOf
  by_cases hs : out.status = GPU_OK
  · rw [if_pos hs]
    exact hs.symm
  · rw [if_neg hs]
    rfl

theorem itemResultOf_failed (out : DecodeOut) (h : out.status ≠ GPU_OK) :
    itemResultOf out = zeroFailedItem out.status := by
  unfold itemResultOf
  rw [if_neg h]

theorem batch_cpu_loop_getD_entry (outcome : LoadOutcome)
    (items : Nat → ItemSpec) :
    ∀ (l : List Nat) (ls : LoaderState) (ctx : ThreadCtx) (k : Nat),
      k < l.length →
      (batch_cpu_loop outcome items l ls ctx).results.getD k
          defaultBatchItem =
        itemResultOf (batch_loop_entry outcome items l ls ctx k) := by
  intro l
  induction l with
  | nil =>
      intro ls ctx k hk
      exact absurd hk (Nat.not_lt_zero k)
  | cons j rest ih =>
      intro ls ctx k hk
      cases k with
      | zero =>
          simp only [batch_cpu_loop, batch_loop_entry, List.getD_cons_zero]
      | succ m =>
          simp only [batch_cpu_loop, batch_loop_entry, List.getD_cons_succ]
          exact ih _ _ m (Nat.lt_of_succ_lt_succ hk)

/-! ## Concrete batch environments used by witnesses and
    counterexamples -/

/-- A caller result array holding non-zero garbage before the call. -/
def garbagePrior : Nat → GpuBatchResult := fun _ =>
  { status := 0, width := 7, height := 7, num_components := 7,
    precision := 7, output_size := 7 }

/-- A batch environment whose staging allocation fails; each item would
decode successfully had it been dispatched individually. -/
def mallocFailBatchEnv : BatchEnv :=
  { mallocOk := false, batchSuccess := 0,
    batchResults := fun _ =>
      { status := 0, width := 0, height := 0, num_components := 0,
        precision := 0, output_size := 0 },
    items := fun _ =>
      { inputNull := false, inputLen := 1, outputNull := false,
        outputLen := 16,
        env := { gpuStatus := 0, gpuResult := ⟨2, 2, 1, 8, 4⟩,
                 gpuErr := [], cpuStatus := 0, cpuWidth := 2,
                 cpuHeight := 2, cpuComponents := 1, cpuErr := [] } } }

/-- A batch environment where the accelerator batch call reports zero
successes and the per-item CPU path succeeds on every item except
item 1. -/
def cpuItemsBatchEnv : BatchEnv :=
  { mallocOk := true, batchSuccess := 0,
    batchResults := fun _ =>
      { status := 0, width := 0, height := 0, num_components := 0,
        precision := 0, output_size := 0 },
    items := fun i =>
      { inputNull := false, inputLen := 1, outputNull := false,
        outputLen := 16,
        env := { gpuStatus := 0, gpuResult := ⟨2, 2, 1, 8, 4⟩,
                 gpuErr := [],
                 cpuStatus := if i = 1 then -3 else 0, cpuWidth := 2,
                 cpuHeight := 2, cpuComponents := 1,
                 cpuErr := ("bad item").data } } }

/-- A batch environment where the accelerator batch call reports one
success out of two items, the second item failing on the accelerator. -/
def mixedAccelBatchEnv : BatchEnv :=
  { mallocOk := true, batchSuccess := 1,
    batchResults := fun i =>
      if i = 0 then { status := 0, width := 2, height := 2,
                      num_components := 1, precision := 8, output_size := 4 }
      else { status := -3, width := 0, height := 0, num_components := 0,
             precision := 0, output_size := 0 },
    items := fun _ =>
      { inputNull := false, inputLen := 1, outputNull := false,
        outputLen := 16,
        env := { gpuStatus := 0, gpuResult := ⟨2, 2, 1, 8, 4⟩,
                 gpuErr := [], cpuStatus := 0, cpuWidth := 2,
                 cpuHeight := 2, cpuComponents := 1, cpuErr := [] } } }

/-! ## Claim C5: a partial accelerator batch success is final -/

/-- Claim C5: when the accelerator batch path is attempted and reports
at least one success, every per-item accelerator result — including the
failed ones — is copied back verbatim at the same index, the call
returns the accelerator's success count, and no item is retried through
the single-item dispatch. -/
theorem C5_partial_accel_batch_success_is_final
    (outcome : LoadOutcome) (ls : LoaderState) (ctx : ThreadCtx)
    (count : Int) (prior : Nat → GpuBatchResult) (benv : BatchEnv)
    (hcount : 0 < count)
    (hguard : (ensure_nvj2k_loaded outcome ls).1.available = true ∧
      ctx.tlsPreferCpu = false ∧
      (ensure_nvj2k_loaded outcome ls).1.fnsResolved = true)
    (hmalloc : benv.mallocOk = true)
    (hsucc : 0 < benv.batchSuccess) :
    (gpu_j2k_decode_batch outcome ls ctx false count prior benv).ret =
      benv.batchSuccess ∧
    (∀ i : Nat, i < count.toNat →
      (gpu_j2k_decode_batch outcome ls ctx false count prior
          benv).results i = nvCopy (benv.batchResults i)) ∧
    (gpu_j2k_decode_batch outcome ls ctx false count prior
        benv).dispatchCalls = 0 ∧
    (gpu_j2k_decode_batch outcome ls ctx false count prior
        benv).gpuBatchCalls = 1 := by
  simp only [gpu_j2k_decode_batch]
  rw [if_neg (by decide : ¬(false = true)), if_neg (not_le.mpr hcount),
    if_pos hguard, if_neg (by simp [hmalloc]), if_pos hsucc]
  refine ⟨rfl, ?_, rfl, rfl⟩
  intro i hi
  simp [hi]

/-- Witness for C5: a two-item batch with one accelerator success; the
failed item's accelerator record is copied back and nothing is
dispatched per item. -/
theorem C5_partial_accel_batch_witness :
    (gpu_j2k_decode_batch .loadSuccess initialLoaderState initialThreadCtx
        false 2 garbagePrior mixedAccelBatchEnv).ret = 1 ∧
    (gpu_j2k_decode_batch .loadSuccess initialLoaderState initialThreadCtx
        false 2 garbagePrior mixedAccelBatchEnv).results 1 =
      nvCopy (mixedAccelBatchEnv.batchResults 1) ∧
    (gpu_j2k_decode_batch .loadSuccess initialLoaderState initialThreadCtx
        false 2 garbagePrior mixedAccelBatchEnv).dispatchCalls = 0 := by
  have h := C5_partial_accel_batch_success_is_final .loadSuccess
    initialLoaderState initialThreadCtx 2 garbagePrior mixedAccelBatchEnv
    (by decide) (by decide) rfl (by decide)
  exact ⟨h.1, h.2.1 1 (by decide), h.2.2.1⟩

/-! ## Claim C6: zero accelerator successes fall back item by item -/

/-- Claim C6 (amended): when the arguments are valid and either the
accelerator batch branch is not taken (unavailable or CPU-preferred) or
it is taken with a successful staging allocation and reports zero
successes, every item is decoded in order through the full single-item
dispatch `gpu_j2k_decode`, each result slot receives that item's
outcome, and the returned value is the number of items that succeeded.
The staging-allocation-failure path is excluded: there the call returns
0 with every item marked OutOfMemory and no per-item fallback. -/
theorem C6_zero_accel_success_dispatches_every_item
    (outcome : LoadOutcome) (ls : LoaderState) (ctx : ThreadCtx)
    (count : Int) (prior : Nat → GpuBatchResult) (benv : BatchEnv)
    (hcount : 0 < count)
    (hbranch : ((ensure_nvj2k_loaded outcome ls).1.available = true ∧
        ctx.tlsPreferCpu = false ∧
        (ensure_nvj2k_loaded outcome ls).1.fnsResolved = true) →
      benv.mallocOk = true ∧ benv.batchSuccess ≤ 0) :
    (gpu_j2k_decode_batch outcome ls ctx false count prior benv).ret =
      ((batch_cpu_loop outcome benv.items (List.range count.toNat)
          (ensure_nvj2k_loaded outcome ls).1 ctx).successCount : Int) ∧
    (gpu_j2k_decode_batch outcome ls ctx false count prior
        benv).dispatchCalls = count.toNat ∧
    (∀ i : Nat, i < count.toNat →
      (gpu_j2k_decode_batch outcome ls ctx false count prior
          benv).results i =
        (batch_cpu_loop outcome benv.items (List.range count.toNat)
            (ensure_nvj2k_loaded outcome ls).1 ctx).results.getD i
          defaultBatchItem) := by
  simp only [gpu_j2k_decode_batch]
  rw [if_neg (by decide : ¬(false = true)), if_neg (not_le.mpr hcount)]
  by_cases hguard : (ensure_nvj2k_loaded outcome ls).1.available = true ∧
      ctx.tlsPreferCpu = false ∧
      (ensure_nvj2k_loaded outcome ls).1.fnsResolved = true
  · obtain ⟨hm, hs⟩ := hbranch hguard
    rw [if_pos hguard, if_neg (by simp [hm]), if_neg (not_lt.mpr hs)]
    refine ⟨rfl, ?_, ?_⟩
    · simp [batch_cpu_loop_dispatch_count]
    · intro i hi
      simp [hi]
  · rw [if_neg hguard]
    refine ⟨rfl, ?_, ?_⟩
    · simp [batch_cpu_loop_dispatch_count]
    · intro i hi
      simp [hi]

/-- Counterexample to C6 as stated: with valid arguments, an available
accelerator and a failed staging allocation, the accelerator batch call
is never attempted and zero successes are reported, yet no item goes
through the single-item dispatch and the call returns 0 — even though
the single item would have decoded successfully. -/
theorem C6_counterexample_malloc_failure :
    (gpu_j2k_decode_batch .loadSuccess initialLoaderState initialThreadCtx
        false 1 garbagePrior mallocFailBatchEnv).ret = 0 ∧
    (gpu_j2k_decode_batch .loadSuccess initialLoaderState initialThreadCtx
        false 1 garbagePrior mallocFailBatchEnv).dispatchCalls = 0 ∧
    (gpu_j2k_decode .loadSuccess initialLoaderState initialThreadCtx
        false 1 false 16 (mallocFailBatchEnv.items 0).env).1.status =
      GPU_OK := by
  refine ⟨?_, ?_, ?_⟩ <;> decide

/-- Witness for the amended C6: accelerator unavailable, two items, one
engineered CPU failure; the batch call dispatches both items and its
outputs match the per-item fallback loop. -/
theorem C6_zero_accel_success_witness :
    (gpu_j2k_decode_batch .libNotFound initialLoaderState initialThreadCtx
        false 2 garbagePrior cpuItemsBatchEnv).ret =
      ((batch_cpu_loop .libNotFound cpuItemsBatchEnv.items
          (List.range (2 : Int).toNat)
          (ensure_nvj2k_loaded .libNotFound initialLoaderState).1
          initialThreadCtx).successCount : Int) ∧
    (gpu_j2k_decode_batch .libNotFound initialLoaderState initialThreadCtx
        false 2 garbagePrior cpuItemsBatchEnv).dispatchCalls =
      (2 : Int).toNat ∧
    (gpu_j2k_decode_batch .libNotFound initialLoaderState initialThreadCtx
        false 2 garbagePrior cpuItemsBatchEnv).results 1 =
      (batch_cpu_loop .libNotFound cpuItemsBatchEnv.items
          (List.range (2 : Int).toNat)
          (ensure_nvj2k_loaded .libNotFound initialLoaderState).1
          initialThreadCtx).results.getD 1 defaultBatchItem := by
  have h := C6_zero_accel_success_dispatches_every_item .libNotFound
    initialLoaderState initialThreadCtx 2 garbagePrior cpuItemsBatchEnv
    (by decide) (fun _ => ⟨rfl, by decide⟩)
  exact ⟨h.1, h.2.1, h.2.2 1 (by decide)⟩

/-! ## Claim C7: failed batch items are zeroed with their specific
    status -/

/-- Claim C7 (amended): with valid arguments and a successful staging
allocation, index correspondence is preserved and every result slot
carries the specific status of its own item.  When the per-item
fallback loop serves the batch, slot i's status equals item i's
single-dispatch status, a failed item's slot is exactly the zeroed
record (zero width, height, components, precision and size) carrying
that specific failing status, and a successful item's slot carries OK
status.  When the accelerator copy-back branch serves the batch, slot
i carries the accelerator's per-item status verbatim (OK exactly for
its successful items) and — the backend zeroing its failed records, as
the bundled nvJPEG2000 wrapper does — a failed slot has width, height,
component count and output size all zero.  The
staging-allocation-failure path is excluded: there only the status
field (OutOfMemory) is written and the dimension fields keep their
prior contents. -/
theorem C7_items_carry_specific_status_failed_zeroed
    (outcome : LoadOutcome) (ls : LoaderState) (ctx : ThreadCtx)
    (count : Int) (prior : Nat → GpuBatchResult) (benv : BatchEnv)
    (hcount : 0 < count)
    (hmalloc : benv.mallocOk = true)
    (hzero : ∀ i : Nat, i < count.toNat →
      (benv.batchResults i).status ≠ GPU_OK →
      (benv.batchResults i).width = 0 ∧ (benv.batchResults i).height = 0 ∧
      (benv.batchResults i).num_components = 0 ∧
      (benv.batchResults i).output_size = 0) :
    ((((ensure_nvj2k_loaded outcome ls).1.available = true ∧
        ctx.tlsPreferCpu = false ∧
        (ensure_nvj2k_loaded outcome ls).1.fnsResolved = true) ∧
      0 < benv.batchSuccess) →
      ∀ i : Nat, i < count.toNat →
        ((gpu_j2k_decode_batch outcome ls ctx false count prior
            benv).results i).status = (benv.batchResults i).status ∧
        (((gpu_j2k_decode_batch outcome ls ctx false count prior
            benv).results i).status ≠ GPU_OK →
          ((gpu_j2k_decode_batch outcome ls ctx false count prior
              benv).results i).width = 0 ∧
          ((gpu_j2k_decode_batch outcome ls ctx false count prior
              benv).results i).height = 0 ∧
          ((gpu_j2k_decode_batch outcome ls ctx false count prior
              benv).results i).num_components = 0 ∧
          ((gpu_j2k_decode_batch outcome ls ctx false count prior
              benv).results i).output_size = 0)) ∧
    ((¬((ensure_nvj2k_loaded outcome ls).1.available = true ∧
        ctx.tlsPreferCpu = false ∧
        (ensure_nvj2k_loaded outcome ls).1.fnsResolved = true) ∨
      benv.batchSuccess ≤ 0) →
      ∀ i : Nat, i < count.toNat →
        ((gpu_j2k_decode_batch outcome ls ctx false count prior
            benv).results i).status =
          (batch_loop_entry outcome benv.items (List.range count.toNat)
              (ensure_nvj2k_loaded outcome ls).1 ctx i).status ∧
        ((batch_loop_entry outcome benv.items (List.range count.toNat)
              (ensure_nvj2k_loaded outcome ls).1 ctx i).status ≠ GPU_OK →
          (gpu_j2k_decode_batch outcome ls ctx false count prior
              benv).results i =
            zeroFailedItem (batch_loop_entry outcome benv.items
                (List.range count.toNat)
                (ensure_nvj2k_loaded outcome ls).1 ctx i).status) ∧
        ((batch_loop_entry outcome benv.items (List.range count.toNat)
              (ensure_nvj2k_loaded outcome ls).1 ctx i).status = GPU_OK →
          ((gpu_j2k_decode_batch outcome ls ctx false count prior
              benv).results i).status = GPU_OK)) := by
  constructor
  · rintro ⟨hguard, hsucc⟩ i hi
    have heq : (gpu_j2k_decode_batch outcome ls ctx false count prior
        benv).results i = nvCopy (benv.batchResults i) := by
      simp only [gpu_j2k_decode_batch]
      rw [if_neg (by decide : ¬(false = true)),
        if_neg (not_le.mpr hcount), if_pos hguard,
        if_neg (by simp [hmalloc]), if_pos hsucc]
      simp [hi]
    rw [heq]
    exact ⟨rfl, fun hfail => hzero i hi hfail⟩
  · intro hfb i hi
    have heq : (gpu_j2k_decode_batch outcome ls ctx false count prior
        benv).results i =
        (batch_cpu_loop outcome benv.items (List.range count.toNat)
            (ensure_nvj2k_loaded outcome ls).1 ctx).results.getD i
          defaultBatchItem := by
      by_cases hguard : (ensure_nvj2k_loaded outcome ls).1.available = true ∧
          ctx.tlsPreferCpu = false ∧
          (ensure_nvj2k_loaded outcome ls).1.fnsResolved = true
      · have hs : benv.batchSuccess ≤ 0 := by
          rcases hfb with hng | hs
          · exact absurd hguard hng
          · exact hs
        simp only [gpu_j2k_decode_batch]
        rw [if_neg (by decide : ¬(false = true)),
          if_neg (not_le.mpr hcount), if_pos hguard,
          if_neg (by simp [hmalloc]), if_neg (not_lt.mpr hs)]
        simp [hi]
      · simp only [gpu_j2k_decode_batch]
        rw [if_neg (by decide : ¬(false = true)),
          if_neg (not_le.mpr hcount), if_neg hguard]
        simp [hi]
    have hentry : (gpu_j2k_decode_batch outcome ls ctx false count prior
        benv).results i =
        itemResultOf (batch_loop_entry outcome benv.items
          (List.range count.toNat)
          (ensure_nvj2k_loaded outcome ls).1 ctx i) := by
      rw [heq]
      exact batch_cpu_loop_getD_entry outcome benv.items _ _ _ i
        (by rw [List.length_range]; exact hi)
    rw [hentry]
    refine ⟨itemResultOf_status _, ?_, ?_⟩
    · intro hfail
      exact itemResultOf_failed _ hfail
    · intro hok
      rw [itemResultOf_status]
      exact hok

/-- Counterexample to C7 as stated: on staging-allocation failure every
item carries a non-OK status (OutOfMemory) but its dimension fields are
not zeroed — they keep the caller's prior garbage. -/
theorem C7_counterexample_malloc_failure :
    ((gpu_j2k_decode_batch .loadSuccess initialLoaderState
        initialThreadCtx false 1 garbagePrior
        mallocFailBatchEnv).results 0).status = GPU_ERR_OUT_OF_MEMORY ∧
    ((gpu_j2k_decode_batch .loadSuccess initialLoaderState
        initialThreadCtx false 1 garbagePrior
        mallocFailBatchEnv).results 0).width = 7 := by
  refine ⟨?_, ?_⟩ <;> decide

/-- Witness for the amended C7: a two-item CPU fallback where item 1
fails; slot 1 is exactly the zeroed record carrying that item's
failing status, and the successful item 0 carries OK status. -/
theorem C7_items_carry_specific_status_witness :
    (gpu_j2k_decode_batch .libNotFound initialLoaderState
        initialThreadCtx false 2 garbagePrior
        cpuItemsBatchEnv).results 1 =
      zeroFailedItem (batch_loop_entry .libNotFound cpuItemsBatchEnv.items
          (List.range (2 : Int).toNat)
          (ensure_nvj2k_loaded .libNotFound initialLoaderState).1
          initialThreadCtx 1).status ∧
    ((gpu_j2k_decode_batch .libNotFound initialLoaderState
        initialThreadCtx false 2 garbagePrior
        cpuItemsBatchEnv).results 0).status = GPU_OK := by
  have h := C7_items_carry_specific_status_failed_zeroed .libNotFound
    initialLoaderState initialThreadCtx 2 garbagePrior cpuItemsBatchEnv
    (by decide) rfl (fun _ _ hne => absurd rfl hne)
  exact ⟨(h.2 (Or.inl (by decide)) 1 (by decide)).2.1 (by decide),
    (h.2 (Or.inl (by decide)) 0 (by decide)).2.2 (by decide)⟩

end SharpDicom
